import Mathlib

/-!
Shallow embedding of the IIoT intrusion-detection pipeline of this
repository: the FastAPI scoring service (app.py), the preprocessing
alignment step shared by app.py and inference_pipeline.py, and the MQTT
forwarding bridge (mqttclient.py).  Timestamps, durations and
probabilities are modelled as rationals; every numeric literal used by
the claims is exactly representable, so no floating-point rounding is
involved in any statement below.
-/

namespace IDS

/-- Association-list lookup, first binding wins (Python dict lookup). -/
def assocFind {α β : Type} [DecidableEq α] : List (α × β) → α → Option β
  | [], _ => none
  | e :: rest, k => if e.1 = k then some e.2 else assocFind rest k

/-- Association-list update: replace the first binding in place, append at
the end when the key is absent (Python dict assignment semantics). -/
def assocSet {α β : Type} [DecidableEq α] : List (α × β) → α → β → List (α × β)
  | [], k, v => [(k, v)]
  | e :: rest, k, v => if e.1 = k then (k, v) :: rest else e :: assocSet rest k v

/-- Per-flow mutable statistics, the values of app.py's `flow_state`
dictionary (lines 39-47).  The `history` deque of app.py is created empty
and never read or written afterwards, so it carries no information and is
omitted from the state. -/
structure FlowState where
  start_time : ℚ
  last_time : ℚ
  byte_count : ℕ
  pkt_count : ℕ
deriving Repr, DecidableEq

/-- app.py `flow_state`: keyed by `(src_ip, device_id)`. -/
abbrev FlowMap : Type := List ((String × String) × FlowState)

/-- The `defaultdict` factory of app.py lines 40-47: both timestamps come
from `time.time()` at first access, modelled as the current event time. -/
def freshFlowState (now : ℚ) : FlowState :=
  { start_time := now, last_time := now, byte_count := 0, pkt_count := 0 }

/-- The division-safety floor `0.00001` of app.py line 219. -/
def flowEpsilon : ℚ := 1 / 100000

/-- The request schema accepted by the scoring endpoint
(app.py lines 177-184).  It has no `network_metadata` field. -/
structure OximeterPayload where
  type : String
  device_id : String
  ts_unix : ℚ
  seq : ℤ
  spo2 : ℚ
  pulse : ℤ
  status : String
deriving Repr, DecidableEq

/-- The `network_metadata` object the bridge attaches to a scoring request
(mqttclient.py lines 69-83, spec section 6). -/
structure NetworkMetadata where
  src_ip : String
  dst_ip : String
  src_port : ℕ
  dst_port : ℕ
  pkt_size : ℕ
  flow_pkt_count : ℕ
  flow_byte_count : ℕ
  flow_duration : ℚ
deriving Repr, DecidableEq

/-- The JSON body of a scoring request as sent by a caller: the
OximeterPayload fields plus the optional caller-supplied network
metadata. -/
structure ScoringRequest where
  type : String
  device_id : String
  ts_unix : ℚ
  seq : ℤ
  spo2 : ℚ
  pulse : ℤ
  status : String
  network_metadata : Option NetworkMetadata
deriving Repr, DecidableEq

/-- Pydantic validation of a scoring request against `OximeterPayload`:
fields not declared on the model (here `network_metadata`) are silently
dropped, which is pydantic's default behaviour for extra fields. -/
def parseOximeterPayload (r : ScoringRequest) : OximeterPayload :=
  { type := r.type, device_id := r.device_id, ts_unix := r.ts_unix,
    seq := r.seq, spo2 := r.spo2, pulse := r.pulse, status := r.status }

/-- The raw feature dictionary built by `get_network_features`
(app.py lines 238-249). -/
structure RawFeatures where
  SrcAddr : String
  DstAddr : String
  Sport : String
  Dport : String
  TotPkts : ℕ
  TotBytes : ℕ
  Dur : ℚ
  Rate : ℚ
  SrcBytes : ℕ
  DstBytes : ℕ
deriving Repr, DecidableEq

/-- app.py lines 191-251, `get_network_features(request, payload)`.
`clientHost`/`clientPort` are `request.client.host` / `request.client.port`.
Note that the stats dictionary is mutated (last_time, byte_count,
pkt_count) *before* the idle check of line 225, so the idle condition
compares `now` with the already-updated `last_time`; and the feature
dictionary is built from the local `stats` reference even if the
`flow_state` entry was replaced by the reset branch. -/
def get_network_features (clientHost : String) (clientPort : ℕ)
    (payload : OximeterPayload) (now : ℚ) (st : FlowMap) :
    FlowMap × RawFeatures :=
  let src_ip := clientHost
  let dst_ip := "127.0.0.1"
  let flow_key : String × String := (src_ip, payload.device_id)
  let pkt_size : ℕ := 300
  let stats0 := (assocFind st flow_key).getD (freshFlowState now)
  let stats : FlowState :=
    { stats0 with last_time := now,
                  byte_count := stats0.byte_count + pkt_size,
                  pkt_count := stats0.pkt_count + 1 }
  let st1 := assocSet st flow_key stats
  let duration0 : ℚ := max (stats.last_time - stats.start_time) flowEpsilon
  let rate0 : ℚ := (stats.pkt_count : ℚ) / duration0
  let st2 := if now - stats.last_time > 5 then
      assocSet st1 flow_key
        { start_time := now, last_time := now,
          byte_count := pkt_size, pkt_count := 1 }
    else st1
  let duration := if now - stats.last_time > 5 then flowEpsilon else duration0
  let rate := if now - stats.last_time > 5 then 0 else rate0
  (st2,
   { SrcAddr := src_ip, DstAddr := dst_ip,
     Sport := toString clientPort, Dport := "8000",
     TotPkts := stats.pkt_count, TotBytes := stats.byte_count,
     Dur := duration, Rate := rate,
     SrcBytes := stats.byte_count, DstBytes := 0 })

/-- Feature derivation for a full scoring request: the request is first
validated against `OximeterPayload` (dropping the undeclared
`network_metadata` field) and then handed to `get_network_features`. -/
def featuresForRequest (clientHost : String) (clientPort : ℕ)
    (req : ScoringRequest) (now : ℚ) (st : FlowMap) : FlowMap × RawFeatures :=
  get_network_features clientHost clientPort (parseOximeterPayload req) now st

/-! ### Claim C1: caller-supplied NetworkMetadata and feature derivation -/

/-- Concrete metadata for the C1 counterexample. -/
def c1meta : NetworkMetadata :=
  { src_ip := "10.0.0.9", dst_ip := "192.168.1.1", src_port := 1883,
    dst_port := 8000, pkt_size := 120, flow_pkt_count := 42,
    flow_byte_count := 9000, flow_duration := 37 }

/-- Concrete scoring request carrying metadata, for the C1 counterexample. -/
def c1req : ScoringRequest :=
  { type := "plx", device_id := "oxi-01", ts_unix := 0, seq := 1,
    spo2 := 97, pulse := 70, status := "ok", network_metadata := some c1meta }

/-- C1 counterexample: a scoring request that carries NetworkMetadata with
`flow_pkt_count = 42` and `src_ip = "10.0.0.9"`, arriving at a fresh flow
map: the raw features handed to the classifier have `TotPkts = 1` (the
tracker counter, not the metadata counter) and `SrcAddr` equal to the
transport peer address, not the metadata address — the metadata is not
used, contradicting the claim. -/
theorem c1_counterexample :
    c1req.network_metadata = some c1meta
    ∧ (featuresForRequest "192.168.1.50" 5000 c1req 100 []).2.TotPkts = 1
    ∧ c1meta.flow_pkt_count = 42
    ∧ (1 : ℕ) ≠ 42
    ∧ (featuresForRequest "192.168.1.50" 5000 c1req 100 []).2.SrcAddr = "192.168.1.50"
    ∧ c1meta.src_ip = "10.0.0.9"
    ∧ "192.168.1.50" ≠ "10.0.0.9" :=
  ⟨rfl, rfl, rfl, by decide, rfl, rfl, by decide⟩

/-- C1 (amended): caller-supplied NetworkMetadata is ignored by the scoring
service — `OximeterPayload` does not declare the field, so validation drops
it; the feature vector is identical whether or not metadata is supplied,
and is always derived from the transport peer address and the per-source
`flow_state` tracker counters. -/
theorem c1_metadata_ignored (host : String) (port : ℕ) (req : ScoringRequest)
    (m : NetworkMetadata) (now : ℚ) (st : FlowMap) :
    featuresForRequest host port { req with network_metadata := some m } now st
      = featuresForRequest host port { req with network_metadata := none } now st
    ∧ (featuresForRequest host port req now st).2.TotPkts
        = ((assocFind st (host, req.device_id)).getD (freshFlowState now)).pkt_count + 1
    ∧ (featuresForRequest host port req now st).2.TotBytes
        = ((assocFind st (host, req.device_id)).getD (freshFlowState now)).byte_count + 300
    ∧ (featuresForRequest host port req now st).2.SrcAddr = host :=
  ⟨rfl, rfl, rfl, rfl⟩

/-! ### Claim C2: the idle-timeout reset -/

/-- One recording step for the C2 scenario: fixed peer and device, varying
event time. -/
def c2step (st : FlowMap) (t : ℚ) : FlowMap :=
  (get_network_features "10.0.0.1" 4000
    { type := "plx", device_id := "dev-1", ts_unix := t, seq := 0,
      spo2 := 97, pulse := 70, status := "ok" } t st).1

/-- Flow map after three events close together (t = 0, 0.1, 0.2). -/
def c2state3 : FlowMap := c2step (c2step (c2step [] 0) (1/10)) (1/5)

/-- C2: the claim (and app.py's own comment at line 224) say an idle gap
greater than 5 seconds resets the snapshot to `pkt_count = 1`,
`byte_count = 300`.  The code checks the gap against the already-updated
`last_time` (app.py line 213 vs 225), so the reset never fires: after three
events at t = 0, 0.1, 0.2 and a fourth at t = 10.2 — a 10-second gap,
well over the threshold — the snapshot shows `pkt_count = 4` and
`byte_count = 1200`, not 1 and 300. -/
theorem c2_idle_reset_never_fires :
    ((51 : ℚ)/5) - ((assocFind c2state3 ("10.0.0.1", "dev-1")).getD
        (freshFlowState 0)).last_time > 5
    ∧ (get_network_features "10.0.0.1" 4000
        { type := "plx", device_id := "dev-1", ts_unix := 51/5, seq := 0,
          spo2 := 97, pulse := 70, status := "ok" } (51/5) c2state3).2.TotPkts = 4
    ∧ (get_network_features "10.0.0.1" 4000
        { type := "plx", device_id := "dev-1", ts_unix := 51/5, seq := 0,
          spo2 := 97, pulse := 70, status := "ok" } (51/5) c2state3).2.TotBytes = 1200 := by
  refine ⟨?_, ?_, ?_⟩ <;>
    norm_num [c2state3, c2step, get_network_features, assocFind, assocSet,
      freshFlowState, flowEpsilon]

/-! ### Claim C3: schema alignment of `preprocess_input`

`preprocess_input` (app.py lines 254-325, identically inference_pipeline.py
lines 144-204) encodes, imputes and scales a one-row DataFrame using the
pickled sklearn artifacts — transformations of the column *values* — and
then, as its final step (app.py lines 302-321), aligns the column *set* to
the classifier's expected feature names.  The claims about the output
column set are decided entirely by this final step, so the columns entering
it are universally quantified below. -/

/-- A one-row DataFrame: an ordered list of (column name, value) pairs. -/
abbrev Cols : Type := List (String × ℚ)

/-- The ordered column names of a one-row DataFrame. -/
def colNames (cols : Cols) : List String := cols.map Prod.fst

/-- app.py lines 308-312: `for col in MODEL_FEATURE_NAMES: if col not in
scaled_df.columns: scaled_df[col] = 0.0` — each missing expected column is
appended (with value 0.0) at the end, the membership test seeing the
columns added so far. -/
def add_missing_model_features : List String → Cols → Cols
  | [], cols => cols
  | n :: rest, cols =>
      add_missing_model_features rest
        (if n ∈ colNames cols then cols else cols ++ [(n, 0)])

/-- app.py lines 314-318: drop every column not in the expected list. -/
def drop_extra_features (expected : List String) (cols : Cols) : Cols :=
  cols.filter fun c => decide (c.1 ∈ expected)

/-- app.py lines 308-321: add missing expected columns as 0.0, drop extra
columns, then reindex to exactly the expected order
(`scaled_df[MODEL_FEATURE_NAMES]`).  After `add_missing_model_features`
every expected name is present, so the `getD 0` default is never used. -/
def align_to_model (expected : List String) (cols : Cols) : Cols :=
  let filled := drop_extra_features expected (add_missing_model_features expected cols)
  expected.map fun n => (n, (assocFind filled n).getD 0)

/-- app.py line 305: the final alignment runs only when
`MODEL_FEATURE_NAMES` is truthy, i.e. loaded and non-empty. -/
def final_alignment (modelFeatureNames : Option (List String)) (cols : Cols) : Cols :=
  match modelFeatureNames with
  | none => cols
  | some expected => if expected = [] then cols else align_to_model expected cols

lemma assocFind_append_of_some {α β : Type} [DecidableEq α]
    {l₁ : List (α × β)} (l₂ : List (α × β)) {k : α} {v : β}
    (h : assocFind l₁ k = some v) : assocFind (l₁ ++ l₂) k = some v := by
  induction l₁ with
  | nil => simp [assocFind] at h
  | cons e rest ih =>
      by_cases he : e.1 = k
      · simpa [assocFind, he] using h
      · simp only [assocFind, he, if_false] at h
        simp only [List.cons_append, assocFind, he, if_false]
        exact ih h

lemma assocFind_append_of_none {α β : Type} [DecidableEq α]
    {l₁ : List (α × β)} (l₂ : List (α × β)) {k : α}
    (h : assocFind l₁ k = none) : assocFind (l₁ ++ l₂) k = assocFind l₂ k := by
  induction l₁ with
  | nil => rfl
  | cons e rest ih =>
      by_cases he : e.1 = k
      · simp [assocFind, he] at h
      · simp only [assocFind, he, if_false] at h
        simp only [List.cons_append, assocFind, he, if_false]
        exact ih h

lemma assocFind_eq_none_iff {α β : Type} [DecidableEq α]
    (l : List (α × β)) (k : α) :
    assocFind l k = none ↔ k ∉ l.map Prod.fst := by
  induction l with
  | nil => simp [assocFind]
  | cons e rest ih =>
      by_cases he : e.1 = k
      · simp [assocFind, he]
      · have he' : k ≠ e.1 := fun h => he h.symm
        simp [assocFind, he, ih, he']

lemma mem_colNames_exists {cols : Cols} {n : String} (h : n ∈ colNames cols) :
    ∃ v, assocFind cols n = some v := by
  rcases ho : assocFind cols n with _ | v
  · exact absurd ((assocFind_eq_none_iff cols n).mp ho) (by simpa [colNames] using h)
  · exact ⟨v, rfl⟩

lemma assocFind_drop_extra {expected : List String} {cols : Cols} {n : String}
    (hmem : n ∈ expected) :
    assocFind (drop_extra_features expected cols) n = assocFind cols n := by
  induction cols with
  | nil => rfl
  | cons c rest ih =>
      simp only [drop_extra_features, List.filter_cons] at ih ⊢
      by_cases hc : c.1 = n
      · rw [if_pos (by simp [hc, hmem])]
        simp [assocFind, hc]
      · by_cases hp : c.1 ∈ expected
        · rw [if_pos (by simp [hp])]
          simp only [assocFind, hc, if_false]
          exact ih
        · rw [if_neg (by simp [hp])]
          rw [ih]
          simp [assocFind, hc]

lemma assocFind_map_self (l : List String) (g : String → ℚ) (m : String) :
    assocFind (l.map fun x => (x, g x)) m
      = if m ∈ l then some (g m) else none := by
  induction l with
  | nil => simp [assocFind]
  | cons a t ih =>
      by_cases ha : a = m
      · subst ha
        simp [assocFind]
      · have ha' : m ≠ a := fun h => ha h.symm
        simp [assocFind, ha, ih, ha']

lemma add_missing_of_some {expected : List String} {cols : Cols} {n : String}
    {v : ℚ} (h : assocFind cols n = some v) :
    assocFind (add_missing_model_features expected cols) n = some v := by
  induction expected generalizing cols with
  | nil => simpa [add_missing_model_features] using h
  | cons m rest ih =>
      simp only [add_missing_model_features]
      by_cases hm : m ∈ colNames cols
      · rw [if_pos hm]; exact ih h
      · rw [if_neg hm]; exact ih (assocFind_append_of_some _ h)

lemma colNames_append (l₁ l₂ : Cols) :
    colNames (l₁ ++ l₂) = colNames l₁ ++ colNames l₂ := by
  simp [colNames]

lemma add_missing_fills {expected : List String} {cols : Cols} {n : String}
    (hmem : n ∈ expected) (habs : n ∉ colNames cols) :
    assocFind (add_missing_model_features expected cols) n = some 0 := by
  induction expected generalizing cols with
  | nil => simp at hmem
  | cons m rest ih =>
      simp only [add_missing_model_features]
      by_cases hmn : m = n
      · subst hmn
        rw [if_neg habs]
        refine add_missing_of_some ?_
        rw [assocFind_append_of_none _ ((assocFind_eq_none_iff cols m).mpr habs)]
        simp [assocFind]
      · have hrest : n ∈ rest := by
          rcases List.mem_cons.mp hmem with h | h
          · exact absurd h.symm hmn
          · exact h
        by_cases hm : m ∈ colNames cols
        · rw [if_pos hm]; exact ih hrest habs
        · rw [if_neg hm]
          refine ih hrest ?_
          rw [colNames_append]
          simp only [List.mem_append]
          rintro (h | h)
          · exact habs h
          · simp [colNames] at h
            exact hmn h.symm

/-- C3: whenever the classifier's expected feature-name list is available
(loaded and non-empty), the aligned output of `preprocess_input` has
exactly the expected column names in their declared order; an expected
name missing from the derived columns is filled with 0.0, an expected name
present keeps its derived value, and a name appearing in the output always
belongs to the expected list (extras are dropped). -/
theorem c3_schema_alignment (modelFeatureNames : Option (List String))
    (expected : List String) (cols : Cols) (n : String)
    (hm : modelFeatureNames = some expected) (hne : expected ≠ []) :
    colNames (final_alignment modelFeatureNames cols) = expected
    ∧ (n ∈ expected → n ∉ colNames cols →
        assocFind (final_alignment modelFeatureNames cols) n = some 0)
    ∧ (n ∈ expected → n ∈ colNames cols →
        assocFind (final_alignment modelFeatureNames cols) n = assocFind cols n)
    ∧ (n ∈ colNames (final_alignment modelFeatureNames cols) → n ∈ expected) := by
  subst hm
  simp only [final_alignment, if_neg hne]
  have hnames : colNames (align_to_model expected cols) = expected := by
    rw [align_to_model]
    simp only [colNames, List.map_map]
    exact List.map_id' expected
  refine ⟨hnames, ?_, ?_, ?_⟩
  · intro hmem habs
    rw [align_to_model, assocFind_map_self, if_pos hmem]
    rw [assocFind_drop_extra hmem, add_missing_fills hmem habs]
    rfl
  · intro hmem hpres
    obtain ⟨v, hv⟩ := mem_colNames_exists hpres
    rw [align_to_model, assocFind_map_self, if_pos hmem]
    rw [assocFind_drop_extra hmem, add_missing_of_some hv, hv]
    rfl
  · intro h
    rw [hnames] at h
    exact h

/-- C3 witness: a concrete raw-derived column set with the extra column
"Foo" and the missing expected column "Rate": the output columns are
exactly ["SrcAddr", "Rate"], "Rate" is filled with 0.0 and "SrcAddr" keeps
its derived value. -/
theorem c3_schema_alignment_witness :
    colNames (final_alignment (some ["SrcAddr", "Rate"])
        [("SrcAddr", 3), ("Foo", 7)]) = ["SrcAddr", "Rate"]
    ∧ assocFind (final_alignment (some ["SrcAddr", "Rate"])
        [("SrcAddr", 3), ("Foo", 7)]) "Rate" = some 0
    ∧ assocFind (final_alignment (some ["SrcAddr", "Rate"])
        [("SrcAddr", 3), ("Foo", 7)]) "SrcAddr"
        = assocFind [(("SrcAddr" : String), (3 : ℚ)), ("Foo", 7)] "SrcAddr" := by
  have h1 := c3_schema_alignment (some ["SrcAddr", "Rate"]) ["SrcAddr", "Rate"]
    [("SrcAddr", 3), ("Foo", 7)] "Rate" rfl (by decide)
  have h2 := c3_schema_alignment (some ["SrcAddr", "Rate"]) ["SrcAddr", "Rate"]
    [("SrcAddr", 3), ("Foo", 7)] "SrcAddr" rfl (by decide)
  refine ⟨h1.1, h1.2.1 (by decide) (by decide), h2.2.2.1 (by decide) (by decide)⟩

/-! ### The API endpoints of app.py: `home` and `analyze_vitals` -/

/-- Body of the health-probe response (app.py lines 332-338). -/
structure HomeBody where
  status : String
  model_loaded : Bool
  model_features : Option (List String)
deriving Repr, DecidableEq

/-- app.py lines 332-338, `GET /`.  The handler returns a plain dictionary,
which FastAPI serves with HTTP status 200 unconditionally. -/
def home (modelLoaded : Bool) (modelFeatureNames : Option (List String)) :
    ℕ × HomeBody :=
  (200, { status := "online", model_loaded := modelLoaded,
          model_features := modelFeatureNames })

/-- The scoring response body built by `analyze_vitals`
(app.py lines 366-376).  `rate` and `duration` are the numbers formatted
into the `flow_stats` strings. -/
structure VitalsResponse where
  device_id : String
  seq : ℤ
  prediction : String
  confidence : ℚ
  rate : ℚ
  duration : ℚ
  server_timestamp : ℚ
deriving Repr, DecidableEq

/-- Outcome of an `analyze_vitals` request: a 200 response body, or an
`HTTPException` with a status code and detail string. -/
inductive HttpReply where
  | ok : VitalsResponse → HttpReply
  | httpError : ℕ → String → HttpReply
deriving Repr, DecidableEq

/-- Oracle for the external classifier artifacts inside the `try` block of
`analyze_vitals`: either preprocessing + prediction succeed, returning
`model.predict` (0 or 1) and the class-1 probability, or some step raises
with a message. -/
inductive ScoreStep where
  | ok : ℕ → ℚ → ScoreStep
  | raiseErr : String → ScoreStep
deriving Repr, DecidableEq

/-- app.py lines 341-388, `POST /analyze_vitals`.  Checks artifact
availability (503 when unloaded), extracts flow features (mutating
`flow_state`), then preprocesses and predicts; any exception after feature
extraction is surfaced as a 500.  The response label is "ATTACK" exactly
when the model predicted class 1, and `confidence` is always the class-1
probability. -/
def analyze_vitals (modelLoaded preprocessorLoaded : Bool)
    (clientHost : String) (clientPort : ℕ) (req : ScoringRequest)
    (now : ℚ) (st : FlowMap) (step : ScoreStep) : FlowMap × HttpReply :=
  if modelLoaded = false ∨ preprocessorLoaded = false then
    (st, .httpError 503 "Model not loaded")
  else
    let payload := parseOximeterPayload req
    let res := get_network_features clientHost clientPort payload now st
    match step with
    | .raiseErr e => (res.1, .httpError 500 e)
    | .ok prediction prob =>
        let is_attack := prediction == 1
        (res.1, .ok
          { device_id := payload.device_id, seq := payload.seq,
            prediction := if is_attack then "ATTACK" else "NORMAL",
            confidence := prob, rate := res.2.Rate, duration := res.2.Dur,
            server_timestamp := now })

/-- The `prediction` field of a reply, when it is a 200 response. -/
def replyPrediction : HttpReply → Option String
  | .ok r => some r.prediction
  | .httpError _ _ => none

/-- The `confidence` field of a reply, when it is a 200 response. -/
def replyConfidence : HttpReply → Option ℚ
  | .ok r => some r.confidence
  | .httpError _ _ => none

/-- Modelled from the spec: the VitalsRuleEngine severity rule determining
`level = high` (spec section 4.3) — this rule layer exists only in the
specification, with no counterpart anywhere under the repository source;
it is needed to state the hypotheses of the fusion claims. -/
def vitalsLevelHigh (spo2 : ℚ) (pulse : ℤ) (status : String) : Bool :=
  (spo2 < 85) || (pulse > 150) || (status == "error")

/-! ### Claim C5: rule-layer ATTACK overrides a class-0 prediction -/

/-- Concrete anomalous request for the C5 counterexample: spo2 70,
pulse 180, device status "error" — level high under the spec's rules. -/
def c5req : ScoringRequest :=
  { type := "plx", device_id := "oxi-attack-01", ts_unix := 0, seq := 1000,
    spo2 := 70, pulse := 180, status := "error", network_metadata := none }

/-- C5 counterexample: classifier predicts class 0 with attack probability
0.2 while the vitals are anomalous at level high; the claim demands label
ATTACK with confidence 0.9, but the code answers NORMAL with confidence
0.2 — `analyze_vitals` never consults the vitals fields. -/
theorem c5_counterexample :
    vitalsLevelHigh c5req.spo2 c5req.pulse c5req.status = true
    ∧ replyPrediction (analyze_vitals true true "10.0.0.5" 6000 c5req 0 []
        (ScoreStep.ok 0 (1/5))).2 = some "NORMAL"
    ∧ replyConfidence (analyze_vitals true true "10.0.0.5" 6000 c5req 0 []
        (ScoreStep.ok 0 (1/5))).2 = some (1/5)
    ∧ some "NORMAL" ≠ some "ATTACK"
    ∧ (some (1/5) : Option ℚ) ≠ some (9/10) := by
  refine ⟨by norm_num [vitalsLevelHigh, c5req], rfl, rfl, by decide, by norm_num⟩

/-- C5 (amended): when the classifier predicts class 0, the verdict has
label NORMAL with confidence equal to the attack probability, even when the
vitals assessment is anomalous at level high — the code has no rule layer
and no fusion, so the vitals never influence the verdict. -/
theorem c5_vitals_never_override (clientHost : String) (clientPort : ℕ)
    (req : ScoringRequest) (now : ℚ) (st : FlowMap) (prob : ℚ)
    (hvitals : vitalsLevelHigh req.spo2 req.pulse req.status = true) :
    replyPrediction (analyze_vitals true true clientHost clientPort req now st
        (ScoreStep.ok 0 prob)).2 = some "NORMAL"
    ∧ replyConfidence (analyze_vitals true true clientHost clientPort req now st
        (ScoreStep.ok 0 prob)).2 = some prob :=
  ⟨rfl, rfl⟩

/-- C5 witness: the amended theorem applied at the concrete anomalous
request of the counterexample. -/
theorem c5_vitals_never_override_witness :
    replyPrediction (analyze_vitals true true "10.0.0.5" 6000 c5req 0 []
        (ScoreStep.ok 0 (1/5))).2 = some "NORMAL"
    ∧ replyConfidence (analyze_vitals true true "10.0.0.5" 6000 c5req 0 []
        (ScoreStep.ok 0 (1/5))).2 = some (1/5) :=
  c5_vitals_never_override "10.0.0.5" 6000 c5req 0 [] (1/5)
    (by norm_num [vitalsLevelHigh, c5req])

/-! ### Claim C6: confidence reported for NORMAL verdicts -/

/-- Concrete benign request for the C6 counterexample. -/
def c6req : ScoringRequest :=
  { type := "plx", device_id := "oxi-normal-01", ts_unix := 0, seq := 1,
    spo2 := 98, pulse := 70, status := "ok", network_metadata := none }

/-- C6 counterexample: classifier predicts class 0 with attack probability
0.1, so the label is NORMAL; the claim says the reported confidence is
1 - 0.1 = 0.9, but the code reports 0.1 — `confidence` is always the raw
class-1 probability. -/
theorem c6_counterexample :
    replyPrediction (analyze_vitals true true "10.0.0.6" 6001 c6req 0 []
        (ScoreStep.ok 0 (1/10))).2 = some "NORMAL"
    ∧ replyConfidence (analyze_vitals true true "10.0.0.6" 6001 c6req 0 []
        (ScoreStep.ok 0 (1/10))).2 = some (1/10)
    ∧ (1/10 : ℚ) ≠ 1 - 1/10 := by
  refine ⟨rfl, rfl, by norm_num⟩

/-- C6 (amended): for every scored event whose final label is NORMAL, the
confidence reported in the scoring response equals the attack probability
itself, not 1 - attack_probability. -/
theorem c6_normal_confidence (clientHost : String) (clientPort : ℕ)
    (req : ScoringRequest) (now : ℚ) (st : FlowMap)
    (prediction : ℕ) (prob : ℚ)
    (hnormal : replyPrediction (analyze_vitals true true clientHost clientPort
        req now st (ScoreStep.ok prediction prob)).2 = some "NORMAL") :
    replyConfidence (analyze_vitals true true clientHost clientPort req now st
        (ScoreStep.ok prediction prob)).2 = some prob := by
  simp only [analyze_vitals] at hnormal ⊢
  norm_num at hnormal ⊢
  rfl

/-- C6 witness: the amended theorem applied at the concrete benign request
of the counterexample. -/
theorem c6_normal_confidence_witness :
    replyConfidence (analyze_vitals true true "10.0.0.6" 6001 c6req 0 []
        (ScoreStep.ok 0 (1/10))).2 = some (1/10) :=
  c6_normal_confidence "10.0.0.6" 6001 c6req 0 [] 0 (1/10) rfl

/-! ### The MQTT bridge (mqttclient.py)

The bridge subscribes to `edge/<gw>/in/#`, mirrors status topics verbatim,
and for data topics calls the scoring API and conditionally republishes to
the Unity topic root.  JSON values are modelled by `JVal`; the external
HTTP interaction (`requests.post` plus response decoding) is an
`ApiOutcome` oracle. -/

/-- A JSON value: string, number, or object (sufficient for the payloads
the bridge manipulates). -/
inductive JVal where
  | str : String → JVal
  | num : ℚ → JVal
  | obj : List (String × JVal) → JVal

/-- A decoded JSON object, as an ordered association list. -/
abbrev JsonMap : Type := List (String × JVal)

/-- Python `str()` of a JSON value, as used when a value is interpolated
into a topic f-string.  Only the string case is exercised by real
payloads; the other cases are placeholders for Python's repr. -/
def pyStr : JVal → String
  | .str s => s
  | .num q => toString q
  | .obj _ => "object"

/-- `data.get("device_id", "unknown")` (mqttclient.py line 153), as the
string interpolated into the outbound topic. -/
def bridgeDeviceId (data : JsonMap) : String :=
  match assocFind data "device_id" with
  | some v => pyStr v
  | none => "unknown"

/-- Per-device counters kept by the bridge (mqttclient.py lines 30-31,
53-64): `device_stats`. -/
structure DeviceStats where
  first_seen : ℚ
  last_seen : ℚ
  pkt_count : ℕ
  byte_count : ℕ
deriving Repr, DecidableEq

abbrev DevMap : Type := List (String × DeviceStats)

/-- mqttclient.py lines 45-85, `build_network_metadata`: update the
per-device counters and assemble the metadata object attached to the
scoring request. -/
def build_network_metadata (deviceIp gatewayIp brokerHost gatewayId : String)
    (ds : DevMap) (device_id mqtt_topic : String) (payload_size : ℕ)
    (now : ℚ) : DevMap × JVal :=
  let stats0 := (assocFind ds device_id).getD
    { first_seen := now, last_seen := now, pkt_count := 0, byte_count := 0 }
  let stats : DeviceStats :=
    { stats0 with last_seen := now, pkt_count := stats0.pkt_count + 1,
                  byte_count := stats0.byte_count + payload_size }
  (assocSet ds device_id stats,
   .obj [("src_ip", .str deviceIp), ("dst_ip", .str gatewayIp),
         ("src_port", .num 1883), ("dst_port", .num 8000),
         ("pkt_size", .num payload_size), ("mqtt_topic", .str mqtt_topic),
         ("mqtt_broker", .str brokerHost), ("gateway_id", .str gatewayId),
         ("flow_pkt_count", .num stats.pkt_count),
         ("flow_byte_count", .num stats.byte_count),
         ("flow_duration", .num (now - stats.first_seen)),
         ("timestamp", .num now)])

/-- Body of a decoded scoring response, as read by the bridge:
`prediction` and `confidence` may each be absent. -/
structure AiBody where
  prediction : Option String
  confidence : Option ℚ

/-- Oracle for one `requests.post` to the scoring API: either the call
raised (timeout or transport failure), or it returned a status code and a
body — `none` when `resp.json()` raises on an undecodable body. -/
inductive ApiOutcome where
  | exn : ApiOutcome
  | resp : ℕ → Option AiBody → ApiOutcome

/-- mqttclient.py lines 90-114, `call_fastapi_inference`: mutates `data`
by inserting the metadata (line 96) before posting, then returns the
decoded response, or `None` on a raised call, a non-200 status, or an
undecodable body.  The mutated `data` is returned because `republish_data`
later serializes this same dictionary. -/
def call_fastapi_inference (data : JsonMap) (nm : JVal)
    (outcome : ApiOutcome) : JsonMap × Option AiBody :=
  let data' := assocSet data "network_metadata" nm
  (data',
   match outcome with
   | .exn => none
   | .resp code body => if code = 200 then body else none)

/-- A payload published by the bridge: either raw inbound bytes
(`mirror_status`) or `json.dumps` of a dictionary (`republish_data`). -/
inductive OutPayload where
  | bytes : List ℕ → OutPayload
  | jsonOf : JsonMap → OutPayload

/-- What one inbound message caused: how many scoring-API calls were made
and what was published downstream. -/
structure BridgeResult where
  apiCalls : ℕ
  published : List (String × OutPayload)

/-- Python `s.endswith(suffix)`, computed on the character lists. -/
def strEndsWith (s suffix : String) : Bool :=
  decide (s.data.drop (s.data.length - suffix.data.length) = suffix.data)

/-- Python `s.split("/")`: split on every slash, keeping empty parts. -/
def splitSlashAux : List Char → List Char → List String
  | [], acc => [String.mk acc.reverse]
  | c :: rest, acc =>
      if c = '/' then String.mk acc.reverse :: splitSlashAux rest []
      else splitSlashAux rest (c :: acc)

/-- Python `s.split("/")` on a string. -/
def pySplitSlash (s : String) : List String := splitSlashAux s.data []

/-- mqttclient.py lines 127-137, `mirror_status`: republish the inbound
payload bytes unchanged to `<unity-root>/<device>/status`. -/
def mirror_status (unityRoot srcTopic : String) (payload : List ℕ) :
    BridgeResult :=
  let parts := pySplitSlash srcTopic
  let device_id :=
    if 5 ≤ parts.length then parts.getD (parts.length - 2) "unknown"
    else "unknown"
  { apiCalls := 0,
    published := [(unityRoot ++ "/" ++ device_id ++ "/status",
                   .bytes payload)] }

/-- mqttclient.py lines 139-190, `republish_data`: decode the payload
(drop silently on failure), build metadata, call the scoring API once,
drop the message when the call failed or the prediction is not "NORMAL",
otherwise republish `json.dumps(data)` — the dictionary into which
`call_fastapi_inference` already inserted `network_metadata` — to
`<unity-root>/<device_id>`. -/
def republish_data (unityRoot deviceIp gatewayIp brokerHost gatewayId : String)
    (ds : DevMap) (mqtt_topic : String) (payload_size : ℕ)
    (decoded : Option JsonMap) (now : ℚ) (outcome : ApiOutcome) :
    DevMap × BridgeResult :=
  match decoded with
  | none => (ds, { apiCalls := 0, published := [] })
  | some data =>
      let device_id := bridgeDeviceId data
      let bm := build_network_metadata deviceIp gatewayIp brokerHost gatewayId
        ds device_id mqtt_topic payload_size now
      let call := call_fastapi_inference data bm.2 outcome
      match call.2 with
      | none => (bm.1, { apiCalls := 1, published := [] })
      | some b =>
          let prediction := b.prediction.getD "UNKNOWN"
          if prediction ≠ "NORMAL" then
            (bm.1, { apiCalls := 1, published := [] })
          else
            (bm.1, { apiCalls := 1,
                     published := [(unityRoot ++ "/" ++ device_id,
                                    .jsonOf call.1)] })

/-- An inbound MQTT message.  `decoded` carries the (deterministic) result
of `json.loads(payload.decode("utf-8", "ignore"))` as data, since the
embedding does not model UTF-8 or JSON text parsing; it is `none` when
decoding raises. -/
structure InMessage where
  topic : String
  payload : List ℕ
  decoded : Option JsonMap

/-- mqttclient.py lines 192-198, `on_message`: a topic ending in "/status"
is mirrored verbatim; anything else goes through the scoring path. -/
def on_message (unityRoot deviceIp gatewayIp brokerHost gatewayId : String)
    (ds : DevMap) (msg : InMessage) (now : ℚ) (outcome : ApiOutcome) :
    DevMap × BridgeResult :=
  if strEndsWith msg.topic "/status" then
    (ds, mirror_status unityRoot msg.topic msg.payload)
  else
    republish_data unityRoot deviceIp gatewayIp brokerHost gatewayId ds
      msg.topic msg.payload.length msg.decoded now outcome

/-- The scoring call failed: the post raised, the status was not 200, or
the response body was undecodable. -/
def api_call_failed : ApiOutcome → Prop
  | .exn => True
  | .resp code body => code ≠ 200 ∨ body = none

/-! ### Claim C4: fail-closed on any scoring-call failure -/

/-- C4: for every inbound data message (non-status topic, decodable body),
if the scoring call fails in any way — raised post, non-200 status, or
undecodable response body — the bridge publishes nothing downstream and
made exactly one API call (no retry). -/
theorem c4_fail_closed (unityRoot deviceIp gatewayIp brokerHost gatewayId :
    String) (ds : DevMap) (msg : InMessage) (d : JsonMap) (now : ℚ)
    (outcome : ApiOutcome)
    (hdata : strEndsWith msg.topic "/status" = false)
    (hdec : msg.decoded = some d)
    (hfail : api_call_failed outcome) :
    ((on_message unityRoot deviceIp gatewayIp brokerHost gatewayId ds msg now
        outcome).2.published = [])
    ∧ (on_message unityRoot deviceIp gatewayIp brokerHost gatewayId ds msg now
        outcome).2.apiCalls = 1 := by
  rw [on_message, hdata]
  simp only [Bool.false_eq_true, if_false, republish_data, hdec]
  cases outcome with
  | exn => exact ⟨rfl, rfl⟩
  | resp code body =>
      rcases hfail with hcode | hbody
      · simp [call_fastapi_inference, if_neg hcode]
      · subst hbody
        by_cases hc : code = 200 <;>
          simp [call_fastapi_inference, hc]

/-- C4 witness: a concrete data message whose scoring call times out is
dropped after exactly one call. -/
theorem c4_fail_closed_witness :
    ((on_message "plx/reading" "192.168.1.100" "192.168.1.1" "127.0.0.1"
        "pi-01" [] { topic := "edge/pi-01/in/oxi-01", payload := [123, 125],
                     decoded := some [("device_id", JVal.str "oxi-01")] }
        50 ApiOutcome.exn).2.published = [])
    ∧ (on_message "plx/reading" "192.168.1.100" "192.168.1.1" "127.0.0.1"
        "pi-01" [] { topic := "edge/pi-01/in/oxi-01", payload := [123, 125],
                     decoded := some [("device_id", JVal.str "oxi-01")] }
        50 ApiOutcome.exn).2.apiCalls = 1 :=
  c4_fail_closed "plx/reading" "192.168.1.100" "192.168.1.1" "127.0.0.1"
    "pi-01" [] _ [("device_id", JVal.str "oxi-01")] 50 ApiOutcome.exn
    (by decide) rfl trivial

/-! ### Claim C7: forward exactly on NORMAL, with the original body -/

/-- The column names of a published JSON payload (empty for raw bytes). -/
def outKeys : OutPayload → List String
  | .bytes _ => []
  | .jsonOf m => m.map Prod.fst

/-- Concrete decoded inbound body for the C7 counterexample: it has no
`network_metadata` key. -/
def c7data : JsonMap := [("device_id", JVal.str "oxi-01"), ("spo2", JVal.num 97)]

/-- Concrete successful scoring outcome for the C7 counterexample. -/
def c7outcome : ApiOutcome :=
  ApiOutcome.resp 200 (some { prediction := some "NORMAL",
                              confidence := some (95/100) })

/-- C7 counterexample: on a successful NORMAL verdict the bridge does
republish, but the body is `json.dumps(data)` where `data` was already
mutated by `call_fastapi_inference` (mqttclient.py line 96): the published
object carries the injected `network_metadata` key that the original
inbound body did not have, so the republished body is not the original
inbound message body. -/
theorem c7_counterexample :
    ((republish_data "plx/reading" "192.168.1.100" "192.168.1.1" "127.0.0.1"
        "pi-01" [] "edge/pi-01/in/oxi-01" 80 (some c7data) 50
        c7outcome).2.published.map fun p => outKeys p.2)
      = [["device_id", "spo2", "network_metadata"]]
    ∧ c7data.map Prod.fst = ["device_id", "spo2"]
    ∧ (republish_data "plx/reading" "192.168.1.100" "192.168.1.1" "127.0.0.1"
        "pi-01" [] "edge/pi-01/in/oxi-01" 80 (some c7data) 50
        c7outcome).2.published
      ≠ [("plx/reading/oxi-01", OutPayload.jsonOf c7data)] := by
  refine ⟨rfl, rfl, ?_⟩
  intro h
  exact absurd (congrArg (fun l => l.map fun p => outKeys p.2) h) (by decide)

/-- C7 (amended): for every inbound data message whose scoring call
succeeds, the bridge forwards downstream exactly when the returned label is
NORMAL, and the body it republishes is the decoded inbound message with the
bridge's `network_metadata` object inserted (never the verdict); any
non-NORMAL or missing label results in no downstream publish. -/
theorem c7_forward_iff_normal (unityRoot deviceIp gatewayIp brokerHost
    gatewayId : String) (ds : DevMap) (msg : InMessage) (data : JsonMap)
    (now : ℚ) (b : AiBody) (outcome : ApiOutcome)
    (hdata : strEndsWith msg.topic "/status" = false)
    (hdec : msg.decoded = some data)
    (hok : outcome = ApiOutcome.resp 200 (some b)) :
    ((on_message unityRoot deviceIp gatewayIp brokerHost gatewayId ds msg now
        outcome).2.published = [] ↔ b.prediction.getD "UNKNOWN" ≠ "NORMAL")
    ∧ (b.prediction.getD "UNKNOWN" = "NORMAL" →
        (on_message unityRoot deviceIp gatewayIp brokerHost gatewayId ds msg
          now outcome).2.published
        = [(unityRoot ++ "/" ++ bridgeDeviceId data,
            OutPayload.jsonOf (assocSet data "network_metadata"
              (build_network_metadata deviceIp gatewayIp brokerHost gatewayId
                ds (bridgeDeviceId data) msg.topic msg.payload.length
                now).2))]) := by
  subst hok
  rw [on_message, hdata]
  simp only [Bool.false_eq_true, if_false, republish_data, hdec]
  by_cases hn : b.prediction.getD "UNKNOWN" = "NORMAL"
  · simp [call_fastapi_inference, hn]
  · simp [call_fastapi_inference, hn]

/-- C7 witness: the amended theorem at the concrete inputs of the
counterexample — the NORMAL message is republished with the metadata-bearing
body. -/
theorem c7_forward_iff_normal_witness :
    (on_message "plx/reading" "192.168.1.100" "192.168.1.1" "127.0.0.1"
        "pi-01" [] { topic := "edge/pi-01/in/oxi-01", payload := [123, 125],
                     decoded := some c7data } 50 c7outcome).2.published
      = [("plx/reading" ++ "/" ++ bridgeDeviceId c7data,
          OutPayload.jsonOf (assocSet c7data "network_metadata"
            (build_network_metadata "192.168.1.100" "192.168.1.1" "127.0.0.1"
              "pi-01" [] (bridgeDeviceId c7data) "edge/pi-01/in/oxi-01" 2
              50).2))] := by
  have h := c7_forward_iff_normal "plx/reading" "192.168.1.100" "192.168.1.1"
    "127.0.0.1" "pi-01" []
    { topic := "edge/pi-01/in/oxi-01", payload := [123, 125],
      decoded := some c7data } c7data 50
    { prediction := some "NORMAL", confidence := some (95/100) } c7outcome
    (by decide) rfl rfl
  exact h.2 rfl

/-! ### Claim C8: status topics are mirrored verbatim, bypassing scoring -/

/-- C8: every inbound message on a topic ending in "/status" bypasses the
scoring pipeline entirely (zero API calls) and is republished downstream
with a payload byte-identical to the inbound payload. -/
theorem c8_status_mirrored (unityRoot deviceIp gatewayIp brokerHost
    gatewayId : String) (ds : DevMap) (msg : InMessage) (now : ℚ)
    (outcome : ApiOutcome)
    (hstatus : strEndsWith msg.topic "/status" = true) :
    on_message unityRoot deviceIp gatewayIp brokerHost gatewayId ds msg now
        outcome = (ds, mirror_status unityRoot msg.topic msg.payload)
    ∧ (on_message unityRoot deviceIp gatewayIp brokerHost gatewayId ds msg now
        outcome).2.apiCalls = 0
    ∧ (on_message unityRoot deviceIp gatewayIp brokerHost gatewayId ds msg now
        outcome).2.published.map Prod.snd = [OutPayload.bytes msg.payload] := by
  rw [on_message, hstatus]
  exact ⟨rfl, rfl, rfl⟩

/-- C8 witness: a concrete status message is mirrored with its exact
payload bytes and no scoring call. -/
theorem c8_status_mirrored_witness :
    on_message "plx/reading" "192.168.1.100" "192.168.1.1" "127.0.0.1"
        "pi-01" [] { topic := "edge/pi-01/in/oxi-07/status",
                     payload := [104, 105], decoded := none } 50
        ApiOutcome.exn
      = ([], mirror_status "plx/reading" "edge/pi-01/in/oxi-07/status"
          [104, 105])
    ∧ (on_message "plx/reading" "192.168.1.100" "192.168.1.1" "127.0.0.1"
        "pi-01" [] { topic := "edge/pi-01/in/oxi-07/status",
                     payload := [104, 105], decoded := none } 50
        ApiOutcome.exn).2.apiCalls = 0
    ∧ (on_message "plx/reading" "192.168.1.100" "192.168.1.1" "127.0.0.1"
        "pi-01" [] { topic := "edge/pi-01/in/oxi-07/status",
                     payload := [104, 105], decoded := none } 50
        ApiOutcome.exn).2.published.map Prod.snd
      = [OutPayload.bytes [104, 105]] :=
  c8_status_mirrored "plx/reading" "192.168.1.100" "192.168.1.1" "127.0.0.1"
    "pi-01" [] { topic := "edge/pi-01/in/oxi-07/status",
                 payload := [104, 105], decoded := none } 50
    ApiOutcome.exn (by decide)

/-! ### Claim C9: surfacing of unloaded classifier artifacts -/

/-- C9 counterexample: with the model unloaded, the health probe still
answers HTTP 200 (body `status: "online"`, `model_loaded: false`), not a
service-unavailable status — the claim's health-probe half fails. -/
theorem c9_counterexample :
    (home false none).1 = 200
    ∧ (200 : ℕ) ≠ 503
    ∧ (home false none).2.status = "online" := by
  refine ⟨rfl, by decide, rfl⟩

/-- C9 (amended): when the classifier artifacts failed to load, the scoring
endpoint rejects every request with a 503 service-unavailable error before
touching any state, while the health probe keeps answering HTTP 200 and
surfaces the condition only through `model_loaded = false` in its body. -/
theorem c9_unloaded_surfacing (modelLoaded preprocessorLoaded : Bool)
    (mfn : Option (List String)) (clientHost : String) (clientPort : ℕ)
    (req : ScoringRequest) (now : ℚ) (st : FlowMap) (step : ScoreStep)
    (hun : modelLoaded = false ∨ preprocessorLoaded = false) :
    (home modelLoaded mfn).1 = 200
    ∧ (home modelLoaded mfn).2.model_loaded = modelLoaded
    ∧ analyze_vitals modelLoaded preprocessorLoaded clientHost clientPort req
        now st step = (st, HttpReply.httpError 503 "Model not loaded") := by
  refine ⟨rfl, rfl, ?_⟩
  rw [analyze_vitals, if_pos hun]

/-- C9 witness: with the model unloaded, a concrete scoring request is
rejected with 503 and the probe answers 200 with `model_loaded = false`. -/
theorem c9_unloaded_surfacing_witness :
    (home false none).1 = 200
    ∧ (home false none).2.model_loaded = false
    ∧ analyze_vitals false true "10.0.0.7" 6002
        { type := "plx", device_id := "oxi-09", ts_unix := 0, seq := 2,
          spo2 := 98, pulse := 70, status := "ok", network_metadata := none }
        0 [] (ScoreStep.ok 1 (1/2))
      = ([], HttpReply.httpError 503 "Model not loaded") :=
  c9_unloaded_surfacing false true none "10.0.0.7" 6002
    { type := "plx", device_id := "oxi-09", ts_unix := 0, seq := 2,
      spo2 := 98, pulse := 70, status := "ok", network_metadata := none }
    0 [] (ScoreStep.ok 1 (1/2)) (Or.inl rfl)

/-! ### Claim C10: flow-state mutation is not rolled back on scoring errors -/

/-- C10: with artifacts loaded, every request that reaches feature
extraction mutates the per-key flow counters (pkt_count +1, byte_count
+300, last_time := now) and, when preprocessing or prediction then raises,
the request fails with a 500 while the mutated counters persist in the
returned flow state — scoring errors are not atomic with respect to flow
state. -/
theorem c10_mutation_persists (clientHost : String) (clientPort : ℕ)
    (req : ScoringRequest) (now : ℚ) (st : FlowMap) (e : String) :
    (analyze_vitals true true clientHost clientPort req now st
        (ScoreStep.raiseErr e)).2 = HttpReply.httpError 500 e
    ∧ (analyze_vitals true true clientHost clientPort req now st
        (ScoreStep.raiseErr e)).1
      = assocSet st (clientHost, req.device_id)
          { start_time := ((assocFind st (clientHost, req.device_id)).getD
              (freshFlowState now)).start_time,
            last_time := now,
            byte_count := ((assocFind st (clientHost, req.device_id)).getD
              (freshFlowState now)).byte_count + 300,
            pkt_count := ((assocFind st (clientHost, req.device_id)).getD
              (freshFlowState now)).pkt_count + 1 } := by
  have h5 : ¬ ((now : ℚ) - now > 5) := by simp
  exact ⟨rfl, by simp [analyze_vitals, get_network_features, h5,
    parseOximeterPayload]⟩

end IDS
